import Mathlib

/-!
Verification of the valens OpenFoodFacts ingestion core
(`valens/nutrition/utils.py` and `valens/nutrition/openfoodfacts.py`)
against its natural-language specification.

Byte strings are modelled as lists of naturals; the newline byte is 10.
The incremental gzip decompressor (`zlib.decompressobj`) is modelled
abstractly as a state-threading function `D : σ → Bytes → σ × Bytes`;
its faithfulness (the concatenation of its outputs over the fed pieces
equals the decompressed stream) appears as a hypothesis where needed.
-/

namespace Valens

abbrev Bytes := List Nat

/-- Python `result.split(b"\n")`: split a byte string on the newline
byte 10. The empty string splits to `[[]]`, matching `b"".split`. -/
def splitNl : Bytes → List Bytes
  | [] => [[]]
  | b :: rest =>
    if b = 10 then
      [] :: splitNl rest
    else
      match splitNl rest with
      | [] => [[b]]
      | h :: t => (b :: h) :: t

/-- One iteration of the framing loop body in `decompress_by_line`
(`utils.py` lines 70-77, identically lines 80-86): the state is the
buffered incomplete line (source name: partial_output, `none` before any
decompressed data was processed) together with the lines yielded so far. -/
def frameStep (st : Option Bytes × List Bytes) (r : Bytes) : Option Bytes × List Bytes :=
  let lines := splitNl r
  let firstOut : List Bytes :=
    if 1 < lines.length then
      [(match st.1 with
        | none => lines.headI
        | some p => p ++ lines.headI)]
    else []
  let po1 : Option Bytes := if 1 < lines.length then none else st.1
  let po2 : Option Bytes :=
    some (match po1 with
      | none => lines.getLastD []
      | some p => p ++ lines.getLastD [])
  (po2, st.2 ++ firstOut ++ lines.tail.dropLast)

/-- The framing loop over the successive decompression results. -/
def frameGo (st : Option Bytes × List Bytes) (rs : List Bytes) : Option Bytes × List Bytes :=
  rs.foldl frameStep st

/-- The input buffering of `decompress_by_line` (source name:
partial_input): chunks are accumulated until at least 42 bytes are
available, each completed batch is handed to the decompressor, and the
final still-buffered rest is returned separately (it is flushed through
the decompressor after the loop, lines 79-86). -/
def coalesce (buf : Bytes) : List Bytes → List Bytes × Bytes
  | [] => ([], buf)
  | c :: rest =>
    if buf.length + c.length < 42 then
      coalesce (buf ++ c) rest
    else
      let p := coalesce [] rest
      ((buf ++ c) :: p.1, p.2)

/-- Thread the abstract decompressor over the batched inputs,
collecting the decompressed pieces in order. -/
def runDecomp {σ : Type} (D : σ → Bytes → σ × Bytes) : σ → List Bytes → σ × List Bytes
  | s, [] => (s, [])
  | s, f :: fs =>
    let p := D s f
    let q := runDecomp D p.1 fs
    (q.1, p.2 :: q.2)

/-- The sequence of decompressed pieces produced during a run of
`decompress_by_line` on `chunks`: the batched pieces from the loop,
followed by the flush of the final buffered rest when it is non-empty. -/
def decompResults {σ : Type} (D : σ → Bytes → σ × Bytes) (s0 : σ) (chunks : List Bytes) :
    List Bytes :=
  if 0 < (coalesce [] chunks).2.length then
    (runDecomp D s0 (coalesce [] chunks).1).2 ++
      [(D (runDecomp D s0 (coalesce [] chunks).1).1 (coalesce [] chunks).2).2]
  else
    (runDecomp D s0 (coalesce [] chunks).1).2

/-- `decompress_by_line` (`utils.py` lines 52-89): feed the chunk
sequence through buffering, decompression and framing; finally the
buffered incomplete line is yielded once (line 89). `none` models the
failure of the `assert partial_output is not None` on line 88. -/
def decompress_by_line {σ : Type} (D : σ → Bytes → σ × Bytes) (s0 : σ) (chunks : List Bytes) :
    Option (List Bytes) :=
  match (frameGo (none, []) (decompResults D s0 chunks)).1 with
  | none => none
  | some p => some ((frameGo (none, []) (decompResults D s0 chunks)).2 ++ [p])

/-- The identity decompressor: a degenerate stream codec whose
decompressed stream is the input itself (used to instantiate witnesses). -/
def idDecomp : Unit → Bytes → Unit × Bytes := fun u c => (u, c)

/-- A decompressor producing no output: models a compressed stream whose
decompressed content is empty. -/
def nullDecomp : Unit → Bytes → Unit × Bytes := fun u _ => (u, [])

/-! ## The OpenFoodFacts record converter (`openfoodfacts.py`)

Python floats are modelled as rationals, Python strings as Lean strings.
`Option` models `Optional`; Python truthiness of an optional float is
"present and non-zero", of an optional string "present and non-empty". -/

/-- Python float truthiness for an `Optional[float]` value. -/
def optTruthy (x : Option ℚ) : Bool :=
  match x with
  | none => false
  | some v => decide (v ≠ 0)

/-- Python `x or None` for an `Optional[float]` value: collapse a falsy
(absent or zero) value to `None`. -/
def orNone (x : Option ℚ) : Option ℚ :=
  match x with
  | some v => if v = 0 then none else some v
  | none => none

/-- Python `str.isdigit` restricted to ASCII digit strings (the only
digits relevant to barcodes): non-empty and all characters `0`-`9`. -/
def pyIsDigit (s : String) : Bool :=
  !s.data.isEmpty && s.data.all (fun c => c.isDigit)

/-- Python `int(s)` on a non-negative decimal digit string. -/
def strToNat (s : String) : Nat :=
  s.data.foldl (fun a c => 10 * a + (c.toNat - 48)) 0

/-- Modelled from the spec: Python's `int` builtin applied to the `id`
field (spec section 3: `id` "must parse to a positive integer"). A digit
string parses to its value, anything else raises `ValueError` (`none`);
signs and surrounding whitespace, unused by dump identifiers, are not
modelled. -/
def pyInt (s : String) : Option Int :=
  if !s.data.isEmpty && s.data.all (fun c => c.isDigit) then some (strToNat s : Int) else none

/-- Python `str.lower`, character-wise (the flag values compared here
are ASCII). -/
def pyLower (s : String) : String :=
  String.mk (s.data.map Char.toLower)

/-- The digit at index `i` of a validated barcode string. -/
def digitAt (s : String) (i : Nat) : Nat :=
  (s.data.getD i '0').toNat - 48

/-- `_valid_ean_country_code` (`openfoodfacts.py` lines 441-464). -/
def _valid_ean_country_code (code : Nat) : Bool :=
  if 20 ≤ code ∧ code < 30 then false
  else if 40 ≤ code ∧ code < 50 then false
  else if 200 ≤ code ∧ code < 300 then false
  else if code > 958 then false
  else true

/-- `_valid_ean8` (`openfoodfacts.py` lines 467-476). -/
def _valid_ean8 (ean : String) : Bool :=
  if ean.length ≠ 8 ∨ pyIsDigit ean = false then false
  else if _valid_ean_country_code (strToNat (ean.take 3)) = false then false
  else
    (((List.range 4).map (fun i => digitAt ean (2 * i + 1))).sum +
      3 * ((List.range 4).map (fun i => digitAt ean (2 * i))).sum) % 10 = 0

/-- `_valid_ean13` (`openfoodfacts.py` lines 479-502); `ean[-1]` is the
digit at index 12 once the length check has passed. -/
def _valid_ean13 (ean : String) : Bool :=
  if ean.length ≠ 13 ∨ pyIsDigit ean = false then false
  else if strToNat ean < 1000000 then false
  else if 1000000 ≤ strToNat ean ∧ strToNat ean < 100000000 then false
  else if _valid_ean_country_code (strToNat (ean.take 3)) = false then false
  else
    (((List.range 6).map (fun i => digitAt ean (2 * i) + 3 * digitAt ean (2 * i + 1))).sum +
      digitAt ean 12) % 10 = 0

/-- The EAN-13 validity condition exactly as the specification words it
(spec section 4.4), for comparison with `_valid_ean13`. -/
def ean13SpecValid (ean : String) : Prop :=
  ean.length = 13 ∧ (∀ c ∈ ean.data, c.isDigit = true) ∧
  100000000 ≤ strToNat ean ∧
  (strToNat (ean.take 3) ≤ 958 ∧
    ¬(20 ≤ strToNat (ean.take 3) ∧ strToNat (ean.take 3) ≤ 29) ∧
    ¬(40 ≤ strToNat (ean.take 3) ∧ strToNat (ean.take 3) ≤ 49) ∧
    ¬(200 ≤ strToNat (ean.take 3) ∧ strToNat (ean.take 3) ≤ 299)) ∧
  (((List.range 6).map (fun i => digitAt ean (2 * i) + 3 * digitAt ean (2 * i + 1))).sum +
    digitAt ean 12) % 10 = 0

/-- `ETHANOL_DENSITY_G_PER_ML = 0.789` (`openfoodfacts.py` line 15). -/
def ETHANOL_DENSITY_G_PER_ML : ℚ := 789 / 1000

/-- `_convert_nutrient` (`openfoodfacts.py` lines 401-438). The float
constants 3e-7, 2.5e-8 and 6.7e-7 are the exact decimals written in the
source. -/
def _convert_nutrient (value : Option ℚ) (unit : Option String) (value_100g : Option ℚ)
    (factor : ℚ) (name : String) : Option ℚ :=
  if optTruthy value_100g then value_100g
  else
    match value, unit with
    | none, _ => none
    | some _, none => none
    | some v, some u =>
      if v = 0 then none
      else if u = "µg" ∨ u = "μg" ∨ u = "&#181;g" then some (factor * v / 1000000)
      else if u = "mg" ∨ u = "mcg" then some (factor * v / 1000)
      else if u = "g" ∨ u = "g/100mL" ∨ u = "g/100g" ∨ u = "" then some (factor * v)
      else if u = "IU" then
        if name = "vitamin_a" then some (factor * v * (3 / 10000000))
        else if name = "vitamin_d" then some (factor * v * (25 / 1000000000))
        else if name = "vitamin_e" then some (factor * v * (67 / 100000000))
        else none
      else none

/-- `REGULAR_NUTRIMENT_NAMES` (`openfoodfacts.py` lines 17-63). -/
def REGULAR_NUTRIMENT_NAMES : List String :=
  ["bicarbonate", "caffeine", "calcium", "carbohydrates", "chloride", "cholesterol",
   "chromium", "copper", "fat", "fiber", "fluoride", "iodine", "iron", "lactose",
   "magnesium", "manganese", "molybdenum", "monounsaturated_fat", "omega_3_fat",
   "omega_6_fat", "phosphorus", "polyunsaturated_fat", "potassium", "proteins",
   "salt", "saturated_fat", "selenium", "sodium", "starch", "sugars", "taurine",
   "trans_fat", "vitamin_a", "vitamin_b12", "vitamin_b1", "vitamin_b2", "vitamin_b5",
   "vitamin_b6", "vitamin_b7", "vitamin_c", "vitamin_d", "vitamin_e", "vitamin_k",
   "vitamin_k1", "zinc"]

/-- `LANGUAGES` (`openfoodfacts.py` lines 65-105). -/
def LANGUAGES : List String :=
  ["ar", "bg", "ca", "ch", "cs", "da", "de", "el", "en", "es", "et", "fi", "fr",
   "he", "hr", "hu", "id", "it", "ja", "la", "lc", "lt", "lv", "nb", "nl", "no",
   "pl", "pt", "ro", "ru", "sk", "sl", "sr", "sv", "th", "tr", "uk", "vi", "zh"]

/-- `models.Unit` (spec section 3: `unit` is `G` or `ML`). -/
inductive MUnit
  | g
  | ml
deriving DecidableEq

/-- `UNITS.get(product_quantity_unit, models.Unit.G)` (`openfoodfacts.py`
lines 107-111 and 557): `"ml"` maps to ML, everything else (None, `"g"`
and unknown units) to G. -/
def unitsGet (u : Option String) : MUnit :=
  match u with
  | some s => if s = "ml" then MUnit.ml else MUnit.g
  | none => MUnit.g

/-- The fields of the `nutriments` sub-record that `_convert_entry`
reads. The per-nutrient triples, accessed by name via `getattr` in the
source, are modelled as three maps from nutrient name to value; the four
specially-treated fields are explicit. -/
structure OFFNutriments where
  value : String → Option ℚ
  unit : String → Option String
  value100g : String → Option ℚ
  energy_kcal : Option ℚ
  energy_kj : Option ℚ
  alcohol : Option ℚ
  alcohol_unit : Option String

/-- The parsed OpenFoodFacts record (`OpenFoodFactsEntry`,
`openfoodfacts.py` lines 331-398); the 39 `product_name_<lang>` fields
are modelled as one map from language code to optional name. -/
structure OFFEntry where
  identifier : Option String
  code : String
  created_t : Option Int
  product_name : Option String
  productNameLang : String → Option String
  product_quantity : Option ℚ
  product_quantity_unit : Option String
  no_nutrition_data : Option String
  serving_quantity : Option ℚ
  serving_quantity_unit : Option String
  nutrition_data_per : Option String
  nutriments : Option OFFNutriments
  nutriments_estimated : Option OFFNutriments
  last_updated_t : Option Int
  brands : Option String
  codes_tags : Option (List String)
  obsolete : Option String

/-- Modelled from the spec: the persisted `models.OpenFoodFactsEntry`
(`models.py` is not part of the ingestion sources; spec section 3 gives
its shape). Dates are represented as epoch day numbers; nutrient fields,
all optional and defaulting to null, are one map from name to value.
Keyword arguments filtered out by the constructor call's truthiness
filters stay at their null default. -/
structure ProductEntry where
  code : String
  created : Int
  last_updated : Int
  name : String
  localized_names : Option String
  brands : Option String
  serving_quantity : Option ℚ
  quantity : Option ℚ
  unit : MUnit
  nutrients : String → Option ℚ

/-- Modelled from the spec: `datetime.date.fromtimestamp`, represented
as the epoch day number of the timestamp (monotone in the timestamp). -/
def dateFromTimestamp (t : Int) : Int := t.fdiv 86400

/-- The two exception classes a record conversion can raise:
`InvalidDataError(reason)` (`openfoodfacts.py` line 114), and the
`ValueError` escaping from `int(entry.identifier)` on line 520. -/
inductive ConvErr
  | invalidData (reason : String)
  | valueError (literal : String)
deriving DecidableEq

/-- `quantity = entry.product_quantity or None`
(`openfoodfacts.py` line 556). -/
def quantityOf (e : OFFEntry) : Option ℚ :=
  match e.product_quantity with
  | some q => if q = 0 then none else some q
  | none => none

/-- Serving-quantity resolution (`openfoodfacts.py` lines 559-570),
taking the already-resolved product `quantity`. -/
def resolveServingQuantity (e : OFFEntry) (quantity : Option ℚ) : Except ConvErr (Option ℚ) :=
  match e.serving_quantity with
  | none => Except.ok none
  | some sq =>
    if sq = 0 then Except.ok none
    else
      match e.serving_quantity_unit with
      | none => Except.ok (some sq)
      | some u =>
        if u = "g" then Except.ok (some sq)
        else if u = "%" then
          match quantity with
          | none => Except.error (ConvErr.invalidData
              "serving_quantity in percent, but no product_quantity")
          | some q => Except.ok (some (sq / 100 * q))
        else Except.error (ConvErr.invalidData ("unsupported serving quantity unit: " ++ u))

/-- Per-serving factor adjustment (`openfoodfacts.py` lines 572-579):
`factor` starts at 1.0 and becomes `100.0 / serving_quantity` when the
nutrition data is per serving. -/
def computeFactor (e : OFFEntry) (serving_quantity : Option ℚ) : Except ConvErr ℚ :=
  if e.nutrition_data_per = some "serving" then
    match serving_quantity with
    | some sq =>
      if sq = 0 then
        Except.error (ConvErr.invalidData "nutrition data per serving, but no serving quantity")
      else Except.ok (100 / sq)
    | none =>
      Except.error (ConvErr.invalidData "nutrition data per serving, but no serving quantity")
  else Except.ok 1

/-- The factor actually used by a conversion of `e`: serving-quantity
resolution followed by the per-serving adjustment. -/
def factorOf (e : OFFEntry) : Except ConvErr ℚ :=
  match resolveServingQuantity e (quantityOf e) with
  | Except.error err => Except.error err
  | Except.ok sq => computeFactor e sq

/-- Alcohol conversion (`openfoodfacts.py` lines 581-591). -/
def convertAlcohol (n : OFFNutriments) (factor : ℚ) : Except ConvErr (Option ℚ) :=
  match n.alcohol with
  | none => Except.ok none
  | some a =>
    match n.alcohol_unit with
    | none => Except.error (ConvErr.invalidData "alcohol has no unit")
    | some u =>
      if u = "% vol" ∨ u = "% vol / *" ∨ u = "vol" ∨ u = "%" then
        Except.ok (some (factor * a * ETHANOL_DENSITY_G_PER_ML))
      else if u = "g" then Except.ok (some (factor * a))
      else Except.error (ConvErr.invalidData ("invalid alcohol unit: " ++ u))

/-- Energy conversion (`openfoodfacts.py` lines 593-598); the kJ→kcal
constant is the exact decimal 0.23900574 from the source. -/
def convertEnergy (n : OFFNutriments) (factor : ℚ) : Option ℚ :=
  match n.energy_kcal with
  | some kcal => some (factor * kcal)
  | none =>
    match n.energy_kj with
    | some kj => some (factor * kj * (23900574 / 100000000))
    | none => none

/-- The synonym-combination rule for vitamin B3/PP and B9/folates
(`openfoodfacts.py` lines 617-621 and 640-644): sum when both are
present, otherwise whichever is present. -/
def combineSynonyms (a b : Option ℚ) : Option ℚ :=
  match a, b with
  | some x, some y => some (x + y)
  | some x, none => some x
  | none, some y => some y
  | none, none => none

/-- `_convert_nutrient` applied to the named nutrient's own triple. -/
def convNamed (n : OFFNutriments) (factor : ℚ) (name : String) : Option ℚ :=
  _convert_nutrient (n.value name) (n.unit name) (n.value100g name) factor name

/-- The combined vitamin B3 value (`vitamin_b3` plus `vitamin_pp`). -/
def vitaminB3Of (n : OFFNutriments) (factor : ℚ) : Option ℚ :=
  combineSynonyms (convNamed n factor "vitamin_b3") (convNamed n factor "vitamin_pp")

/-- The combined vitamin B9 value (`vitamin_b9` plus `folates`). -/
def vitaminB9Of (n : OFFNutriments) (factor : ℚ) : Option ℚ :=
  combineSynonyms (convNamed n factor "vitamin_b9") (convNamed n factor "folates")

/-- The keys of the `nutriment_values` dict (`openfoodfacts.py` lines
655-671). -/
def NUTRIMENT_KEYS : List String :=
  ["alcohol", "energy", "vitamin_b3", "vitamin_b9"] ++ REGULAR_NUTRIMENT_NAMES

/-- The `nutriment_values` dict (`openfoodfacts.py` lines 655-671) as a
map from key to value; every entry carries the source's `or None`. -/
def nutrimentValues (n : OFFNutriments) (factor : ℚ) (alcohol : Option ℚ) (key : String) :
    Option ℚ :=
  if key = "alcohol" then orNone alcohol
  else if key = "energy" then orNone (convertEnergy n factor)
  else if key = "vitamin_b3" then orNone (vitaminB3Of n factor)
  else if key = "vitamin_b9" then orNone (vitaminB9Of n factor)
  else if key ∈ REGULAR_NUTRIMENT_NAMES then orNone (convNamed n factor key)
  else none

/-- `localized_names` (`openfoodfacts.py` lines 646-653): the
`"lang:name"` pairs of every language whose localized product name is
present (truthy) and differs from the product name. -/
def localizedNames (e : OFFEntry) (pname : String) : String :=
  String.intercalate "," (LANGUAGES.filterMap (fun lang =>
    match e.productNameLang lang with
    | some nm => if nm ≠ "" ∧ nm ≠ pname then some (lang ++ ":" ++ nm) else none
    | none => none))

/-- Brand normalization (`openfoodfacts.py` lines 678-680): split on
commas, strip each brand, rejoin. -/
def normalizeBrands (b : String) : String :=
  String.intercalate "," ((b.splitOn ",").map (fun s => s.trim))

/-- `nutriments or nutriments_estimated` (`openfoodfacts.py` line 549). -/
def nutrimentsOf (e : OFFEntry) : Option OFFNutriments :=
  match e.nutriments with
  | some n => some n
  | none => e.nutriments_estimated

/-- `last_updated` (`openfoodfacts.py` lines 689-691): the date of a
truthy `last_updated_t`, otherwise `created`. -/
def lastUpdatedOf (e : OFFEntry) (created : Int) : Int :=
  match e.last_updated_t with
  | some t => if t = 0 then created else dateFromTimestamp t
  | none => created

/-- Python `str.zfill` for non-negative content: left-pad with zeros to
the requested width. -/
def zfill (s : String) (width : Nat) : String :=
  if width ≤ s.length then s else String.mk (List.replicate (width - s.length) '0') ++ s

/-- The tail of `_convert_entry` after the gates and the barcode
validation (`openfoodfacts.py` lines 549-695): nutriments selection,
quantity and serving resolution, factor, nutrient conversion, the
all-null gate, and construction of the persisted entry. The
keyword-argument truthiness filters on lines 693-694 are reflected in
the optional metadata fields; nutrient values already carry `or None`. -/
def convertValidated (e : OFFEntry) (pname : String) (created_t : Int) (code : String) :
    Except ConvErr ProductEntry :=
  match nutrimentsOf e with
  | none => Except.error (ConvErr.invalidData "no nutriments present")
  | some n =>
    match resolveServingQuantity e (quantityOf e) with
    | Except.error err => Except.error err
    | Except.ok serving_quantity =>
      match computeFactor e serving_quantity with
      | Except.error err => Except.error err
      | Except.ok factor =>
        match convertAlcohol n factor with
        | Except.error err => Except.error err
        | Except.ok alcohol =>
          if NUTRIMENT_KEYS.all (fun k => (nutrimentValues n factor alcohol k).isNone) then
            Except.error (ConvErr.invalidData "all nutrition data is zero")
          else
            Except.ok
              { code := code
                created := dateFromTimestamp created_t
                last_updated := lastUpdatedOf e (dateFromTimestamp created_t)
                name := pname
                localized_names :=
                  if localizedNames e pname = "" then none else some (localizedNames e pname)
                brands :=
                  match e.brands with
                  | some b =>
                    if b = "" then none
                    else if normalizeBrands b = "" then none else some (normalizeBrands b)
                  | none => none
                serving_quantity :=
                  match serving_quantity with
                  | some v => if v = 0 then none else some v
                  | none => none
                quantity :=
                  match quantityOf e with
                  | some v => if v = 0 then none else some v
                  | none => none
                unit := unitsGet e.product_quantity_unit
                nutrients := nutrimentValues n factor alcohol }

/-- Truthiness of `no_nutrition_data` combined with the membership test
of `_convert_entry` line 514. -/
def noNutritionGate (e : OFFEntry) : Bool :=
  match e.no_nutrition_data with
  | some s => !(s == "") && (pyLower s == "on" || pyLower s == "true")
  | none => false

/-- Truthiness of `obsolete` combined with the equality test of
`_convert_entry` line 532. -/
def obsoleteGate (e : OFFEntry) : Bool :=
  match e.obsolete with
  | some s => !(s == "") && pyLower s == "on"
  | none => false

/-- `not entry.codes_tags` (`_convert_entry` line 529). -/
def codesTagsMissing (e : OFFEntry) : Bool :=
  match e.codes_tags with
  | some l => l.isEmpty
  | none => true

/-- `_convert_entry` (`openfoodfacts.py` lines 505-695), starting from
the already-parsed record (JSON decoding is outside this model): the
seven pre-filter gates in source order, the barcode selection and
validation, then `convertValidated`. -/
def _convert_entry (e : OFFEntry) : Except ConvErr ProductEntry :=
  if noNutritionGate e then Except.error (ConvErr.invalidData "no nutrition data")
  else
    match e.identifier with
    | none => Except.error (ConvErr.invalidData "no identifier")
    | some ident =>
      match pyInt ident with
      | none => Except.error (ConvErr.valueError ident)
      | some nid =>
        if nid = 0 then
          Except.error (ConvErr.invalidData ("invalid identifier (" ++ ident ++ ")"))
        else
          match e.created_t with
          | none => Except.error (ConvErr.invalidData "no creation date")
          | some created_t =>
            match e.product_name with
            | none => Except.error (ConvErr.invalidData "no product name")
            | some pname =>
              if codesTagsMissing e then Except.error (ConvErr.invalidData "no codes tags")
              else if obsoleteGate e then Except.error (ConvErr.invalidData "obsolete entry")
              else if "code-8" ∈ e.codes_tags.getD [] then
                if _valid_ean8 (zfill e.code 8) then
                  convertValidated e pname created_t (zfill e.code 8)
                else Except.error (ConvErr.invalidData "invalid EAN-8 code")
              else if "code-13" ∈ e.codes_tags.getD [] then
                if _valid_ean13 (zfill e.code 13) then
                  convertValidated e pname created_t (zfill e.code 13)
                else Except.error (ConvErr.invalidData "invalid EAN-13 code")
              else Except.error (ConvErr.invalidData "no supported code tag found")

/-- Gate 1 as the claim words it: `no_nutrition_data` is `"on"` or
`"true"`, case-insensitively. -/
def specGate1 (e : OFFEntry) : Bool :=
  match e.no_nutrition_data with
  | some s => pyLower s == "on" || pyLower s == "true"
  | none => false

/-- Gate 7 as the claim words it: `obsolete` equals `"on"`,
case-insensitively. -/
def specGate7 (e : OFFEntry) : Bool :=
  match e.obsolete with
  | some s => pyLower s == "on"
  | none => false

/-- The gate list exactly as the claim words it: the reason of the first
failing pre-filter gate, `none` when all seven pass. -/
def firstGateFailure (e : OFFEntry) : Option String :=
  if specGate1 e = true then some "no nutrition data"
  else if e.identifier = none then some "no identifier"
  else if e.identifier.bind pyInt = some 0 then
    some ("invalid identifier (" ++ e.identifier.getD "" ++ ")")
  else if e.created_t = none then some "no creation date"
  else if e.product_name = none then some "no product name"
  else if e.codes_tags = none ∨ e.codes_tags = some [] then some "no codes tags"
  else if specGate7 e = true then some "obsolete entry"
  else none

/-! Concrete records used to instantiate witnesses and counterexamples. -/

/-- A nutriments sub-record with no data at all. -/
def baseNutriments : OFFNutriments :=
  { value := fun _ => none
    unit := fun _ => none
    value100g := fun _ => none
    energy_kcal := none
    energy_kj := none
    alcohol := none
    alcohol_unit := none }

/-- A minimal gate-passing record with a valid EAN-13 code. -/
def baseEntry : OFFEntry :=
  { identifier := some "1"
    code := "4006381333931"
    created_t := some 1234567890
    product_name := some "Test"
    productNameLang := fun _ => none
    product_quantity := none
    product_quantity_unit := none
    no_nutrition_data := none
    serving_quantity := none
    serving_quantity_unit := none
    nutrition_data_per := none
    nutriments := none
    nutriments_estimated := none
    last_updated_t := none
    brands := none
    codes_tags := some ["code-13"]
    obsolete := none }

/-- Nutriments carrying `vitamin_b3 = 2` and `vitamin_pp = -2` (per 100g)
plus `fat = 5`: the two niacin sources sum to zero. -/
def nb3Nutriments : OFFNutriments :=
  { baseNutriments with
    value100g := fun k =>
      if k = "vitamin_b3" then some 2
      else if k = "vitamin_pp" then some (-2)
      else if k = "fat" then some 5
      else none }

/-- Nutriments carrying `vitamin_b3 = 3` (per 100g) plus `fat = 5`. -/
def nbWNutriments : OFFNutriments :=
  { baseNutriments with
    value100g := fun k =>
      if k = "vitamin_b3" then some 3
      else if k = "fat" then some 5
      else none }

/-- Nutriments carrying only `fat = 5` (per 100g). -/
def fatNutriments : OFFNutriments :=
  { baseNutriments with
    value100g := fun k => if k = "fat" then some 5 else none }

/-- A record whose two niacin sources cancel to zero. -/
def recVitaminCex : OFFEntry :=
  { baseEntry with nutriments := some nb3Nutriments }

/-- A record with a single niacin source. -/
def recVitaminOk : OFFEntry :=
  { baseEntry with nutriments := some nbWNutriments }

/-- A record updated before it was created: `created_t` is day 2 of the
epoch, `last_updated_t` day 0. -/
def recLateDate : OFFEntry :=
  { baseEntry with
    nutriments := some fatNutriments
    created_t := some 200000
    last_updated_t := some 1000 }

/-- A record with a non-numeric identifier and a missing creation date. -/
def recGateCex : OFFEntry :=
  { baseEntry with identifier := some "abc", created_t := none }

/-- A record with a non-numeric identifier (all pre-filter gates before
the identifier conversion pass). -/
def recBadIdent : OFFEntry :=
  { baseEntry with identifier := some "abc", nutriments := some fatNutriments }

/-- A record marked obsolete (case-insensitively), all earlier gates
passing. -/
def recGateObsolete : OFFEntry :=
  { baseEntry with obsolete := some "On" }

/-- A record with nutrition data per serving and a percent serving
quantity. -/
def recServing : OFFEntry :=
  { baseEntry with
    nutriments := some fatNutriments
    serving_quantity := some 50
    serving_quantity_unit := some "%"
    product_quantity := some 200
    nutrition_data_per := some "serving" }

theorem splitNl_ne_nil (b : Bytes) : splitNl b ≠ [] := by
  induction b with
  | nil => simp [splitNl]
  | cons c rest ih =>
    simp only [splitNl]
    split
    · simp
    · split
      · simp
      · simp

theorem noNl_of_mem_splitNl : ∀ {b l : Bytes}, l ∈ splitNl b → 10 ∉ l := by
  intro b
  induction b with
  | nil =>
    intro l hl
    simp [splitNl] at hl
    simp [hl]
  | cons c rest ih =>
    intro l hl
    simp only [splitNl] at hl
    by_cases hc : c = 10
    · rw [if_pos hc] at hl
      rcases List.mem_cons.mp hl with h | h
      · simp [h]
      · exact ih h
    · rw [if_neg hc] at hl
      rcases hh : splitNl rest with _ | ⟨h0, t⟩
      · exact absurd hh (splitNl_ne_nil rest)
      · rw [hh] at hl
        rcases List.mem_cons.mp hl with h | h
        · subst h
          intro hmem
          rcases List.mem_cons.mp hmem with h | h
          · exact hc h.symm
          · exact ih (hh ▸ List.mem_cons_self h0 t) h
        · exact ih (hh ▸ List.mem_cons_of_mem h0 h)

theorem splitNl_of_noNl : ∀ {b : Bytes}, 10 ∉ b → splitNl b = [b] := by
  intro b
  induction b with
  | nil => intro _; rfl
  | cons c rest ih =>
    intro h
    have hc : c ≠ 10 := fun hh => h (hh ▸ List.mem_cons_self c rest)
    have hrest : 10 ∉ rest := fun hh => h (List.mem_cons_of_mem c hh)
    simp only [splitNl, if_neg hc, ih hrest]

theorem splitNl_append (xs ys : Bytes) :
    splitNl (xs ++ ys) =
      (splitNl xs).dropLast ++
        ((splitNl xs).getLastD [] ++ (splitNl ys).headI) :: (splitNl ys).tail := by
  induction xs with
  | nil =>
    rcases h : splitNl ys with _ | ⟨a, t⟩
    · exact absurd h (splitNl_ne_nil ys)
    · simp [splitNl, h]
  | cons b xs ih =>
    rcases h : splitNl xs with _ | ⟨a, t⟩
    · exact absurd h (splitNl_ne_nil xs)
    by_cases hb : b = 10
    · subst hb
      have hL : splitNl ((10 : Nat) :: xs ++ ys) = [] :: splitNl (xs ++ ys) := by
        simp [splitNl]
      have hR : splitNl ((10 : Nat) :: xs) = [] :: splitNl xs := by
        simp [splitNl]
      rw [List.cons_append] at hL ⊢
      rw [hL, hR, ih, h]
      simp [List.getLastD_cons]
    · have hL : splitNl (b :: (xs ++ ys)) =
          match splitNl (xs ++ ys) with
          | [] => [[b]]
          | l :: ls => (b :: l) :: ls := by
        simp [splitNl, hb]
      have hR : splitNl (b :: xs) = (b :: a) :: t := by
        simp [splitNl, hb, h]
      rw [List.cons_append, hL, ih, h, hR]
      rcases t with _ | ⟨a2, t2⟩
      · simp [List.getLastD_cons]
      · simp [List.getLastD_cons]

theorem splitNl_noNl_append {p : Bytes} (r : Bytes) (hp : 10 ∉ p) :
    splitNl (p ++ r) = (p ++ (splitNl r).headI) :: (splitNl r).tail := by
  rw [splitNl_append, splitNl_of_noNl hp]
  rfl

theorem getLastD_mem {α : Type} (l : List α) (d : α) (h : l ≠ []) : l.getLastD d ∈ l := by
  rw [List.getLastD_eq_getLast?, List.getLast?_eq_getLast l h]
  exact List.getLast_mem h

theorem dropLast_append_getLastD {α : Type} (l : List α) (d : α) (h : l ≠ []) :
    l.dropLast ++ [l.getLastD d] = l := by
  rw [List.getLastD_eq_getLast?, List.getLast?_eq_getLast l h]
  exact List.dropLast_append_getLast h

theorem getLastD_append_cons {α : Type} (u : List α) (x : α) (v : List α) (d : α) :
    (u ++ x :: v).getLastD d = (x :: v).getLastD d := by
  rw [List.getLastD_eq_getLast?, List.getLastD_eq_getLast?,
    List.getLast?_append_of_ne_nil _ (List.cons_ne_nil _ _)]

theorem dropLast_append_cons {α : Type} (u : List α) (x : α) (v : List α) :
    (u ++ x :: v).dropLast = u ++ (x :: v).dropLast :=
  List.dropLast_append_of_ne_nil _ (List.cons_ne_nil _ _)

theorem frameStep_some (p : Bytes) (acc : List Bytes) (r : Bytes) (hp : 10 ∉ p) :
    frameStep (some p, acc) r =
      (some ((splitNl (p ++ r)).getLastD []), acc ++ (splitNl (p ++ r)).dropLast) := by
  rw [splitNl_noNl_append r hp]
  rcases h : splitNl r with _ | ⟨l0, t⟩
  · exact absurd h (splitNl_ne_nil r)
  · rcases t with _ | ⟨l1, t1⟩
    · simp [frameStep, h, List.getLastD_cons]
    · have hlt : 1 < (l0 :: l1 :: t1).length := by simp
      simp [frameStep, h, hlt, List.getLastD_cons]

theorem frameGo_some :
    ∀ (rs : List Bytes) (p : Bytes) (acc : List Bytes), 10 ∉ p →
      frameGo (some p, acc) rs =
        (some ((splitNl (p ++ rs.flatten)).getLastD []),
          acc ++ (splitNl (p ++ rs.flatten)).dropLast) := by
  intro rs
  induction rs with
  | nil =>
    intro p acc hp
    simp [frameGo, splitNl_of_noNl hp]
  | cons r rest ih =>
    intro p acc hp
    have hstep : frameGo (some p, acc) (r :: rest) =
        frameGo (frameStep (some p, acc) r) rest := rfl
    rw [hstep, frameStep_some p acc r hp]
    have hone : splitNl (p ++ r) ≠ [] := splitNl_ne_nil _
    have hp2 : 10 ∉ (splitNl (p ++ r)).getLastD [] :=
      noNl_of_mem_splitNl (getLastD_mem _ _ hone)
    rw [ih _ _ hp2]
    have hjoin : p ++ (r :: rest).flatten = (p ++ r) ++ rest.flatten := by
      simp [List.flatten_cons]
    show _ = (some ((splitNl (p ++ (r :: rest).flatten)).getLastD []),
      acc ++ (splitNl (p ++ (r :: rest).flatten)).dropLast)
    rw [hjoin, splitNl_append (p ++ r) rest.flatten,
      splitNl_noNl_append rest.flatten hp2]
    simp only [Prod.mk.injEq]
    constructor
    · -- the retained line after the whole run
      rw [getLastD_append_cons]
    · -- the emitted lines accumulate
      rw [dropLast_append_cons, List.append_assoc]

theorem frameStep_none (acc : List Bytes) (r : Bytes) :
    frameStep (none, acc) r = frameStep (some [], acc) r := by
  simp only [frameStep]
  by_cases h : 1 < (splitNl r).length
  · simp [h]
  · simp [h]

theorem frameGo_none (rs : List Bytes) (h : rs ≠ []) :
    frameGo (none, []) rs =
      (some ((splitNl rs.flatten).getLastD []), (splitNl rs.flatten).dropLast) := by
  rcases rs with _ | ⟨r, rest⟩
  · exact absurd rfl h
  · have h1 : frameGo (none, []) (r :: rest) =
        frameGo (frameStep (none, []) r) rest := rfl
    have h2 : frameGo (some [], []) (r :: rest) =
        frameGo (frameStep (some [], []) r) rest := rfl
    rw [h1, frameStep_none, ← h2, frameGo_some (r :: rest) [] [] (by simp)]
    simp

theorem coalesce_join : ∀ (chunks : List Bytes) (buf : Bytes),
    (coalesce buf chunks).1.flatten ++ (coalesce buf chunks).2 = buf ++ chunks.flatten := by
  intro chunks
  induction chunks with
  | nil => intro buf; simp [coalesce]
  | cons c rest ih =>
    intro buf
    simp only [coalesce]
    split
    · rw [ih (buf ++ c)]
      simp [List.flatten]
    · have := ih []
      simp only [List.flatten_cons, List.nil_append] at this ⊢
      simp [List.append_assoc, this]

theorem runDecomp_length {σ : Type} (D : σ → Bytes → σ × Bytes) :
    ∀ (s : σ) (fs : List Bytes), ((runDecomp D s fs).2).length = fs.length := by
  intro s fs
  induction fs generalizing s with
  | nil => rfl
  | cons f fs ih => simp [runDecomp, ih]

theorem decompResults_ne_nil {σ : Type} (D : σ → Bytes → σ × Bytes) (s0 : σ)
    (chunks : List Bytes) (h : chunks.flatten ≠ []) : decompResults D s0 chunks ≠ [] := by
  have hj := coalesce_join chunks []
  simp only [List.nil_append] at hj
  unfold decompResults
  by_cases hfin : 0 < (coalesce [] chunks).2.length
  · simp [hfin]
  · have hfin' : (coalesce [] chunks).2 = [] := by
      cases hh : (coalesce [] chunks).2 with
      | nil => rfl
      | cons a t => rw [hh] at hfin; simp at hfin
    rw [hfin', List.append_nil] at hj
    have hfs : (coalesce [] chunks).1 ≠ [] := by
      intro hc
      rw [hc] at hj
      exact h (hj ▸ rfl)
    simp only [hfin']
    simp only [List.length_nil, lt_irrefl, if_false]
    intro hc
    have := runDecomp_length D s0 (coalesce [] chunks).1
    rw [hc] at this
    exact hfs (List.length_eq_zero.mp this.symm)

theorem coalesce_nil_of_join_nil : ∀ (chunks : List Bytes), chunks.flatten = [] →
    coalesce [] chunks = ([], []) := by
  intro chunks
  induction chunks with
  | nil => intro _; rfl
  | cons c rest ih =>
    intro h
    simp only [List.flatten_cons, List.append_eq_nil] at h
    rcases h with ⟨hc, hrest⟩
    subst hc
    simp only [coalesce, List.length_nil, List.length_nil, Nat.add_zero]
    rw [if_pos (by norm_num), List.append_nil]
    exact ih hrest

/-- C1. Framer round-trip: for every chunking of a compressed stream, if
the decompressor faithfully reproduces the decompressed content `s` over
the pieces actually fed to it, and the chunks carry at least one byte,
then `decompress_by_line` yields exactly the split of `s` on the newline
byte, each line excluding its trailing newline. -/
theorem decompress_by_line_roundtrip {σ : Type} (D : σ → Bytes → σ × Bytes) (s0 : σ)
    (chunks : List Bytes) (s : Bytes)
    (hdec : (decompResults D s0 chunks).flatten = s) (hne : chunks.flatten ≠ []) :
    decompress_by_line D s0 chunks = some (splitNl s) := by
  have hr := decompResults_ne_nil D s0 chunks hne
  unfold decompress_by_line
  rw [frameGo_none _ hr, hdec]
  simp only []
  rw [dropLast_append_getLastD (splitNl s) [] (splitNl_ne_nil s)]

theorem decompress_by_line_roundtrip_witness :
    ((decompResults idDecomp () [[97, 10], [98]]).flatten = [97, 10, 98] ∧
      ([[97, 10], [98]] : List Bytes).flatten ≠ []) ∧
    decompress_by_line idDecomp () [[97, 10], [98]] = some (splitNl [97, 10, 98]) :=
  ⟨⟨by decide, by decide⟩,
    decompress_by_line_roundtrip idDecomp () [[97, 10], [98]] [97, 10, 98]
      (by decide) (by decide)⟩

/-- C9 counterexample: a non-empty chunk sequence whose decompressed
content is empty makes `decompress_by_line` yield exactly one line (the
empty byte string) — matching `b"".split(b"\n") = [b""]` — not zero
lines as the claim states. -/
theorem decompress_empty_stream_cex :
    (decompResults nullDecomp () [List.replicate 42 0]).flatten = [] ∧
    decompress_by_line nullDecomp () [List.replicate 42 0] = some [[]] ∧
    decompress_by_line nullDecomp () [List.replicate 42 0] ≠ some [] := by
  refine ⟨by decide, by decide, by decide⟩

/-- C9 amended: if the chunks decompress to the empty byte string, then
when they carry at least one byte the framer yields exactly one line,
the empty byte string; when the chunk sequence carries no bytes at all,
the final assertion on the buffered line fails (modelled as `none`) and
nothing is yielded. -/
theorem decompress_empty_stream {σ : Type} (D : σ → Bytes → σ × Bytes) (s0 : σ)
    (chunks : List Bytes) :
    ((decompResults D s0 chunks).flatten = [] → chunks.flatten ≠ [] →
      decompress_by_line D s0 chunks = some [[]]) ∧
    (chunks.flatten = [] → decompress_by_line D s0 chunks = none) := by
  constructor
  · intro hdec hne
    have hr := decompResults_ne_nil D s0 chunks hne
    unfold decompress_by_line
    rw [frameGo_none _ hr, hdec]
    rfl
  · intro hj
    unfold decompress_by_line decompResults
    rw [coalesce_nil_of_join_nil chunks hj]
    rfl

theorem decompress_empty_stream_witness :
    decompress_by_line nullDecomp () [[1]] = some [[]] ∧
    decompress_by_line nullDecomp () ([[]] : List Bytes) = none :=
  ⟨(decompress_empty_stream nullDecomp () [[1]]).1 (by decide) (by decide),
    (decompress_empty_stream nullDecomp () ([[]] : List Bytes)).2 (by decide)⟩

theorem valid_ean_country_iff (p : Nat) :
    _valid_ean_country_code p = true ↔
      (p ≤ 958 ∧ ¬(20 ≤ p ∧ p ≤ 29) ∧ ¬(40 ≤ p ∧ p ≤ 49) ∧ ¬(200 ≤ p ∧ p ≤ 299)) := by
  unfold _valid_ean_country_code
  split_ifs with h1 h2 h3 h4 <;> simp <;> omega

theorem pyIsDigit_iff (s : String) :
    pyIsDigit s = true ↔ (s.data ≠ [] ∧ ∀ c ∈ s.data, c.isDigit = true) := by
  unfold pyIsDigit
  simp [List.isEmpty_iff, List.all_eq_true]

/-- C2. The EAN-13 validator agrees exactly with the specification's
wording: length 13, all digits, numeric value at least 100000000, the
three-digit prefix in the valid country ranges, and the weighted
checksum divisible by 10. -/
theorem valid_ean13_iff_spec (ean : String) :
    _valid_ean13 ean = true ↔ ean13SpecValid ean := by
  have hlen : ean.length = ean.data.length := rfl
  unfold _valid_ean13 ean13SpecValid
  split_ifs with h1 h2 h3 h4
  · simp only [false_iff]
    rintro ⟨hL, hD, -⟩
    rcases h1 with h1 | h1
    · exact h1 hL
    · have hne : ean.data ≠ [] := by
        intro hnil
        rw [hlen, hnil] at hL
        simp at hL
      have ht : pyIsDigit ean = true := (pyIsDigit_iff ean).mpr ⟨hne, hD⟩
      rw [h1] at ht
      exact absurd ht (by simp)
  · simp only [false_iff]
    rintro ⟨-, -, hN, -⟩
    omega
  · simp only [false_iff]
    rintro ⟨-, -, hN, -⟩
    omega
  · simp only [false_iff]
    rintro ⟨-, -, -, hP, -⟩
    have ht := (valid_ean_country_iff (strToNat (ean.take 3))).mpr hP
    rw [h4] at ht
    exact absurd ht (by simp)
  · simp only [decide_eq_true_eq]
    push_neg at h1
    obtain ⟨hL, hD⟩ := h1
    have hDt : pyIsDigit ean = true := by
      cases hb : pyIsDigit ean
      · exact absurd hb hD
      · rfl
    have hCt : _valid_ean_country_code (strToNat (ean.take 3)) = true := by
      cases hb : _valid_ean_country_code (strToNat (ean.take 3))
      · exact absurd hb h4
      · rfl
    constructor
    · intro hsum
      refine ⟨hL, ((pyIsDigit_iff ean).mp hDt).2, by omega,
        (valid_ean_country_iff _).mp hCt, hsum⟩
    · rintro ⟨-, -, -, -, hsum⟩
      exact hsum

/-- C3. A truthy `value_100g` is returned unchanged regardless of the
other arguments. -/
theorem convert_nutrient_value100g (value : Option ℚ) (unit : Option String) (v : ℚ)
    (factor : ℚ) (name : String) (h : 0 < v) :
    _convert_nutrient value unit (some v) factor name = some v := by
  have ht : optTruthy (some v) = true := by
    simp only [optTruthy, decide_eq_true_eq]
    exact ne_of_gt h
  simp [_convert_nutrient, ht]

theorem convert_nutrient_value100g_witness :
    (0 : ℚ) < 3 ∧ _convert_nutrient (some 1) (some "g") (some 3) 2 "fat" = some 3 :=
  ⟨by norm_num, convert_nutrient_value100g (some 1) (some "g") 3 2 "fat" (by norm_num)⟩

/-- C4 counterexample: with `value = 0` but a truthy `value_100g`, the
converter returns `value_100g`, not null — the `value_100g` branch runs
first. -/
theorem convert_nutrient_zero_cex :
    _convert_nutrient (some 0) (some "g") (some 5) 1 "fat" = some 5 ∧
    some (5 : ℚ) ≠ none :=
  ⟨by decide, by decide⟩

/-- C4 amended: `value = 0` returns null whenever `value_100g` is falsy
(absent or zero); a truthy `value_100g` takes precedence and is returned
instead. -/
theorem convert_nutrient_zero_amended (unit : Option String) (value_100g : Option ℚ)
    (factor : ℚ) (name : String) (h : optTruthy value_100g = false) :
    _convert_nutrient (some 0) unit value_100g factor name = none := by
  simp only [_convert_nutrient, h, Bool.false_eq_true, if_false]
  cases unit with
  | none => rfl
  | some u => simp

theorem convert_nutrient_zero_amended_witness :
    optTruthy (none : Option ℚ) = false ∧
    _convert_nutrient (some 0) (some "g") none 1 "fat" = none :=
  ⟨by decide, convert_nutrient_zero_amended (some "g") none 1 "fat" (by decide)⟩

/-- C5. Per-serving scaling: with nutrition data per serving, the factor
is `100 / serving_quantity` for the resolved (truthy) serving quantity;
a percent serving quantity resolves to `serving_quantity / 100 ·
product_quantity` first; and an unresolved serving quantity rejects the
record with the exact reason string. -/
theorem serving_factor_spec (e : OFFEntry) (sq q : ℚ) :
    (e.nutrition_data_per = some "serving" → sq ≠ 0 →
      computeFactor e (some sq) = Except.ok (100 / sq)) ∧
    (e.serving_quantity = some sq → sq ≠ 0 → e.serving_quantity_unit = some "%" →
      resolveServingQuantity e (some q) = Except.ok (some (sq / 100 * q))) ∧
    (e.nutrition_data_per = some "serving" →
      computeFactor e none = Except.error (ConvErr.invalidData
        "nutrition data per serving, but no serving quantity")) := by
  refine ⟨?_, ?_, ?_⟩
  · intro hper hsq
    unfold computeFactor
    rw [if_pos hper]
    simp [hsq]
  · intro hs hsq hu
    unfold resolveServingQuantity
    rw [hs, hu]
    simp [hsq]
  · intro hper
    unfold computeFactor
    rw [if_pos hper]

theorem serving_factor_spec_witness :
    (recServing.nutrition_data_per = some "serving" ∧ (100 : ℚ) ≠ 0 ∧
      recServing.serving_quantity = some 50 ∧ (50 : ℚ) ≠ 0 ∧
      recServing.serving_quantity_unit = some "%") ∧
    computeFactor recServing (some 100) = Except.ok (100 / 100) ∧
    resolveServingQuantity recServing (some 200) = Except.ok (some (50 / 100 * 200)) ∧
    computeFactor recServing none = Except.error (ConvErr.invalidData
      "nutrition data per serving, but no serving quantity") :=
  ⟨⟨rfl, by norm_num, rfl, by norm_num, rfl⟩,
    (serving_factor_spec recServing 100 0).1 rfl (by norm_num),
    (serving_factor_spec recServing 50 200).2.1 rfl (by norm_num) rfl,
    (serving_factor_spec recServing 0 0).2.2 rfl⟩

theorem convert_entry_ok_inv {e : OFFEntry} {pe : ProductEntry}
    (h : _convert_entry e = Except.ok pe) :
    ∃ pname created_t codeStr,
      e.product_name = some pname ∧ e.created_t = some created_t ∧
      convertValidated e pname created_t codeStr = Except.ok pe ∧
      (_valid_ean8 codeStr = true ∨ _valid_ean13 codeStr = true) := by
  unfold _convert_entry at h
  by_cases g1 : noNutritionGate e = true
  · simp [g1] at h
  simp only [g1, if_false] at h
  rcases hid : e.identifier with _ | ident
  · simp [hid] at h
  simp only [hid] at h
  rcases hpi : pyInt ident with _ | nid
  · simp [hpi] at h
  simp only [hpi] at h
  by_cases hz : nid = 0
  · simp [hz] at h
  simp only [hz, if_false] at h
  rcases hct : e.created_t with _ | created_t
  · simp [hct] at h
  simp only [hct] at h
  rcases hpn : e.product_name with _ | pname
  · simp [hpn] at h
  simp only [hpn] at h
  by_cases hcm : codesTagsMissing e = true
  · simp [hcm] at h
  simp only [hcm, if_false] at h
  by_cases hob : obsoleteGate e = true
  · simp [hob] at h
  simp only [hob, if_false] at h
  by_cases h8 : "code-8" ∈ e.codes_tags.getD []
  · simp only [h8, if_true] at h
    by_cases hv8 : _valid_ean8 (zfill e.code 8) = true
    · simp only [hv8, if_true] at h
      exact ⟨pname, created_t, zfill e.code 8, rfl, rfl, h, Or.inl hv8⟩
    · simp [hv8] at h
  · simp only [h8, if_false] at h
    by_cases h13 : "code-13" ∈ e.codes_tags.getD []
    · simp only [h13, if_true] at h
      by_cases hv13 : _valid_ean13 (zfill e.code 13) = true
      · simp only [hv13, if_true] at h
        exact ⟨pname, created_t, zfill e.code 13, rfl, rfl, h, Or.inr hv13⟩
      · simp [hv13] at h
    · simp [h13] at h

theorem convertValidated_ok_inv {e : OFFEntry} {pname : String} {created_t : Int}
    {codeStr : String} {pe : ProductEntry}
    (h : convertValidated e pname created_t codeStr = Except.ok pe) :
    ∃ n sq f alcohol,
      nutrimentsOf e = some n ∧
      resolveServingQuantity e (quantityOf e) = Except.ok sq ∧
      computeFactor e sq = Except.ok f ∧
      convertAlcohol n f = Except.ok alcohol ∧
      pe.code = codeStr ∧ pe.name = pname ∧
      pe.created = dateFromTimestamp created_t ∧
      pe.last_updated = lastUpdatedOf e (dateFromTimestamp created_t) ∧
      pe.nutrients = nutrimentValues n f alcohol ∧
      ¬(NUTRIMENT_KEYS.all (fun k => (nutrimentValues n f alcohol k).isNone) = true) := by
  unfold convertValidated at h
  rcases hn : nutrimentsOf e with _ | n
  · simp [hn] at h
  simp only [hn] at h
  rcases hsq : resolveServingQuantity e (quantityOf e) with err | sq
  · simp [hsq] at h
  simp only [hsq] at h
  rcases hf : computeFactor e sq with err | f
  · simp [hf] at h
  simp only [hf] at h
  rcases halc : convertAlcohol n f with err | alcohol
  · simp [halc] at h
  simp only [halc] at h
  by_cases hall : NUTRIMENT_KEYS.all (fun k => (nutrimentValues n f alcohol k).isNone) = true
  · simp [hall] at h
  rw [if_neg hall] at h
  simp only [Except.ok.injEq] at h
  subst h
  exact ⟨n, sq, f, alcohol, rfl, rfl, hf, halc, rfl, rfl, rfl, rfl, rfl, hall⟩

theorem noNutritionGate_eq_specGate1 (e : OFFEntry) : noNutritionGate e = specGate1 e := by
  unfold noNutritionGate specGate1
  rcases hs : e.no_nutrition_data with _ | s
  · rfl
  · by_cases h0 : s = ""
    · subst h0
      decide
    · have hb : (s == "") = false := by
        simp [h0]
      change (!(s == "") && (pyLower s == "on" || pyLower s == "true")) = _
      rw [hb]
      rfl

theorem obsoleteGate_eq_specGate7 (e : OFFEntry) : obsoleteGate e = specGate7 e := by
  unfold obsoleteGate specGate7
  rcases hs : e.obsolete with _ | s
  · rfl
  · by_cases h0 : s = ""
    · subst h0
      decide
    · have hb : (s == "") = false := by
        simp [h0]
      change (!(s == "") && pyLower s == "on") = _
      rw [hb]
      rfl

theorem codesTagsMissing_iff (e : OFFEntry) :
    codesTagsMissing e = true ↔ (e.codes_tags = none ∨ e.codes_tags = some []) := by
  unfold codesTagsMissing
  rcases hs : e.codes_tags with _ | l
  · simp
  · simp [List.isEmpty_iff]

/-- C6 counterexample: a record whose identifier is present but not a
decimal integer and whose creation date is missing. Per the claim, the
earliest failing gate is gate 4 (`"no creation date"`), but the code
raises the `ValueError` escaping from `int(entry.identifier)` instead of
an `InvalidDataError`. -/
theorem gates_cex :
    firstGateFailure recGateCex = some "no creation date" ∧
    _convert_entry recGateCex = Except.error (ConvErr.valueError "abc") ∧
    (Except.error (ConvErr.valueError "abc") : Except ConvErr ProductEntry) ≠
      Except.error (ConvErr.invalidData "no creation date") := by
  refine ⟨by decide, rfl, ?_⟩
  intro hc
  simp at hc

/-- C6 amended: provided every present identifier parses as a decimal
integer (otherwise `int()` raises `ValueError` before the later gates
run — see C10), `_convert_entry` applies the seven pre-filter gates in
the listed order and rejects with `InvalidDataError` carrying the reason
of the first failing gate. -/
theorem gates_in_order (e : OFFEntry)
    (hid : ∀ s, e.identifier = some s → (pyInt s).isSome = true) :
    ∀ reason, firstGateFailure e = some reason →
      _convert_entry e = Except.error (ConvErr.invalidData reason) := by
  intro reason h
  unfold firstGateFailure at h
  by_cases g1 : specGate1 e = true
  · rw [if_pos g1] at h
    simp only [Option.some.injEq] at h
    cases h
    simp [_convert_entry, noNutritionGate_eq_specGate1, g1]
  rw [if_neg g1] at h
  rcases hident : e.identifier with _ | s
  · rw [if_pos hident] at h
    simp only [Option.some.injEq] at h
    cases h
    simp [_convert_entry, noNutritionGate_eq_specGate1, g1, hident]
  rw [if_neg (by rw [hident]; simp)] at h
  have hpis := hid s hident
  rcases hpi : pyInt s with _ | nid
  · rw [hpi] at hpis
    simp at hpis
  by_cases hz : nid = 0
  · subst hz
    rw [if_pos (by rw [hident, Option.some_bind, hpi])] at h
    rw [hident] at h
    simp only [Option.getD_some, Option.some.injEq] at h
    cases h
    simp [_convert_entry, noNutritionGate_eq_specGate1, g1, hident, hpi]
  rw [if_neg (by rw [hident, Option.some_bind, hpi]; simp [hz])] at h
  rcases hct : e.created_t with _ | created_t
  · rw [if_pos hct] at h
    simp only [Option.some.injEq] at h
    cases h
    simp [_convert_entry, noNutritionGate_eq_specGate1, g1, hident, hpi, hz, hct]
  rw [if_neg (by rw [hct]; simp)] at h
  rcases hpn : e.product_name with _ | pname
  · rw [if_pos hpn] at h
    simp only [Option.some.injEq] at h
    cases h
    simp [_convert_entry, noNutritionGate_eq_specGate1, g1, hident, hpi, hz, hct, hpn]
  rw [if_neg (by rw [hpn]; simp)] at h
  by_cases g6 : codesTagsMissing e = true
  · rw [if_pos ((codesTagsMissing_iff e).mp g6)] at h
    simp only [Option.some.injEq] at h
    cases h
    simp [_convert_entry, noNutritionGate_eq_specGate1, g1, hident, hpi, hz, hct, hpn, g6]
  rw [if_neg (fun hc => g6 ((codesTagsMissing_iff e).mpr hc))] at h
  by_cases g7 : specGate7 e = true
  · rw [if_pos g7] at h
    simp only [Option.some.injEq] at h
    cases h
    simp [_convert_entry, noNutritionGate_eq_specGate1, obsoleteGate_eq_specGate7,
      g1, hident, hpi, hz, hct, hpn, g6, g7]
  rw [if_neg g7] at h
  simp at h

theorem gates_in_order_witness :
    ((∀ s, recGateObsolete.identifier = some s → (pyInt s).isSome = true) ∧
      firstGateFailure recGateObsolete = some "obsolete entry") ∧
    _convert_entry recGateObsolete = Except.error (ConvErr.invalidData "obsolete entry") :=
  ⟨⟨fun s hs => by cases hs; decide, by decide⟩,
    gates_in_order recGateObsolete (fun s hs => by cases hs; decide)
      "obsolete entry" (by decide)⟩

/-- C10. A present but non-decimal identifier (for example `"abc"`)
makes `_convert_entry` raise the `ValueError` from `int()` — not an
`InvalidDataError` — so the per-record error branch is not total: this
rejection would escape the orchestrator's `except InvalidDataError`
skip. -/
theorem nonnumeric_identifier_valueerror :
    _convert_entry recBadIdent = Except.error (ConvErr.valueError "abc") ∧
    (∀ r, _convert_entry recBadIdent ≠ Except.error (ConvErr.invalidData r)) := by
  refine ⟨rfl, ?_⟩
  intro r hr
  rw [show _convert_entry recBadIdent = Except.error (ConvErr.valueError "abc") from rfl] at hr
  simp at hr

/-- C7 counterexample: with `vitamin_b3 = 2` and `vitamin_pp = -2` both
converting to non-null values, the produced entry's `vitamin_b3` field
is null (the zero sum is collapsed by `or None`), not the sum the claim
requires. -/
theorem vitamin_b3_sum_cex :
    convNamed nb3Nutriments 1 "vitamin_b3" = some 2 ∧
    convNamed nb3Nutriments 1 "vitamin_pp" = some (-2) ∧
    (_convert_entry recVitaminCex).toOption.map (fun pe => pe.nutrients "vitamin_b3") =
      some none ∧
    some (some ((2 : ℚ) + -2)) ≠ some (none : Option ℚ) := by
  refine ⟨by decide, by decide, ?_, by decide⟩
  simp +decide [_convert_entry, convertValidated, recVitaminCex, baseEntry, nb3Nutriments,
    baseNutriments, noNutritionGate, obsoleteGate, codesTagsMissing, pyInt, zfill,
    nutrimentsOf, quantityOf, resolveServingQuantity, computeFactor, convertAlcohol,
    convertEnergy, nutrimentValues, vitaminB3Of, vitaminB9Of, convNamed, _convert_nutrient,
    optTruthy, orNone, combineSynonyms, localizedNames, lastUpdatedOf, dateFromTimestamp,
    NUTRIMENT_KEYS, REGULAR_NUTRIMENT_NAMES, LANGUAGES, unitsGet, Except.toOption]

/-- C7 amended: for every record the conversion accepts, the produced
entry's `vitamin_b3` field is the `or None` collapse of the synonym
combination (sum when both `vitamin_b3` and `vitamin_pp` convert to
non-null, the single one otherwise): in particular it is the sum when
both are non-null and the sum is non-zero, and null when the sum is
zero. The same holds for `vitamin_b9` with `folates`. -/
theorem vitamin_b3_b9_combination (e : OFFEntry) (n : OFFNutriments) (f : ℚ)
    (hn : nutrimentsOf e = some n) (hf : factorOf e = Except.ok f) :
    (_convert_entry e).toOption.map (fun pe => pe.nutrients "vitamin_b3") =
      (_convert_entry e).toOption.map (fun _ => orNone (vitaminB3Of n f)) ∧
    (_convert_entry e).toOption.map (fun pe => pe.nutrients "vitamin_b9") =
      (_convert_entry e).toOption.map (fun _ => orNone (vitaminB9Of n f)) := by
  rcases hres : _convert_entry e with err | pe
  · simp [Except.toOption]
  · obtain ⟨pname, ct, c, hpn, hct, hcv, -⟩ := convert_entry_ok_inv hres
    obtain ⟨n2, sq2, f2, alc, hn2, hsq2, hf2, halc2, -, -, -, -, hnut, -⟩ :=
      convertValidated_ok_inv hcv
    rw [hn] at hn2
    cases Option.some.inj hn2
    have hft : factorOf e = Except.ok f2 := by
      unfold factorOf
      rw [hsq2]
      exact hf2
    rw [hf] at hft
    cases Except.ok.inj hft
    constructor
    · simp only [Except.toOption, Option.map_some']
      rw [hnut]
      simp [nutrimentValues]
    · simp only [Except.toOption, Option.map_some']
      rw [hnut]
      simp [nutrimentValues]

theorem vitamin_b3_b9_combination_witness :
    (nutrimentsOf recVitaminOk = some nbWNutriments ∧
      factorOf recVitaminOk = Except.ok 1) ∧
    ((_convert_entry recVitaminOk).toOption.map (fun pe => pe.nutrients "vitamin_b3") =
      (_convert_entry recVitaminOk).toOption.map
        (fun _ => orNone (vitaminB3Of nbWNutriments 1)) ∧
    (_convert_entry recVitaminOk).toOption.map (fun pe => pe.nutrients "vitamin_b9") =
      (_convert_entry recVitaminOk).toOption.map
        (fun _ => orNone (vitaminB9Of nbWNutriments 1))) :=
  ⟨⟨rfl, rfl⟩, vitamin_b3_b9_combination recVitaminOk nbWNutriments 1 rfl rfl⟩

theorem length_of_valid_ean8 {c : String} (h : _valid_ean8 c = true) : c.length = 8 := by
  by_cases h1 : c.length ≠ 8 ∨ pyIsDigit c = false
  · unfold _valid_ean8 at h
    rw [if_pos h1] at h
    exact absurd h (by simp)
  · push_neg at h1
    exact h1.1

theorem length_of_valid_ean13 {c : String} (h : _valid_ean13 c = true) : c.length = 13 := by
  by_cases h1 : c.length ≠ 13 ∨ pyIsDigit c = false
  · unfold _valid_ean13 at h
    rw [if_pos h1] at h
    exact absurd h (by simp)
  · push_neg at h1
    exact h1.1

theorem orNone_ne_some_zero (x : Option ℚ) : orNone x ≠ some 0 := by
  unfold orNone
  rcases x with _ | v
  · simp
  · by_cases hv : v = 0
    · simp [hv]
    · simp [hv]

theorem nutrimentValues_ne_some_zero (n : OFFNutriments) (f : ℚ) (alc : Option ℚ)
    (k : String) : nutrimentValues n f alc k ≠ some 0 := by
  unfold nutrimentValues
  split_ifs <;> first | exact orNone_ne_some_zero _ | simp

/-- C8 counterexample: a record whose `last_updated_t` timestamp lies
two days before its `created_t` is accepted, and the produced entry has
`created = 2` and `last_updated = 0` (epoch days) — `created ≤
last_updated` is not enforced. -/
theorem entry_dates_cex :
    (_convert_entry recLateDate).toOption.map
      (fun pe => (pe.created, pe.last_updated)) = some (2, 0) ∧
    (_convert_entry recLateDate).toOption.map
      (fun pe => decide (pe.created ≤ pe.last_updated)) = some false := by
  exact ⟨by decide, by decide⟩

/-- C8 amended: every entry the conversion produces has a non-empty
code passing the EAN-8 or EAN-13 check, carries the record's product
name, has at least one non-null nutrient field and no nutrient field
equal to zero; its `last_updated` is the date of a truthy
`last_updated_t` and `created` otherwise — which may lie before
`created`, so `created ≤ last_updated` does not hold in general. -/
theorem entry_invariants (e : OFFEntry) :
    match _convert_entry e with
    | Except.error _ => True
    | Except.ok pe =>
      pe.code ≠ "" ∧ (_valid_ean8 pe.code = true ∨ _valid_ean13 pe.code = true) ∧
      (∃ pname, e.product_name = some pname ∧ pe.name = pname) ∧
      (∃ k, k ∈ NUTRIMENT_KEYS ∧ pe.nutrients k ≠ none) ∧
      (∀ k, pe.nutrients k ≠ some 0) ∧
      pe.last_updated = lastUpdatedOf e pe.created := by
  rcases hres : _convert_entry e with err | pe
  · trivial
  · obtain ⟨pname, ct, c, hpn, hct, hcv, hval⟩ := convert_entry_ok_inv hres
    obtain ⟨n, sq, f, alc, hn, hsq, hf, halc, hcode, hname, hcreated, hlu, hnut, hall⟩ :=
      convertValidated_ok_inv hcv
    refine ⟨?_, ?_, ⟨pname, hpn, hname⟩, ?_, ?_, ?_⟩
    · rw [hcode]
      rcases hval with hv | hv
      · have hlen := length_of_valid_ean8 hv
        intro hc
        rw [hc] at hlen
        exact absurd hlen (by decide)
      · have hlen := length_of_valid_ean13 hv
        intro hc
        rw [hc] at hlen
        exact absurd hlen (by decide)
    · rw [hcode]
      exact hval
    · rw [hnut]
      rw [List.all_eq_true] at hall
      push_neg at hall
      obtain ⟨k, hk, hknn⟩ := hall
      refine ⟨k, hk, fun hc => hknn ?_⟩
      rw [hc]
      rfl
    · intro k
      rw [hnut]
      exact nutrimentValues_ne_some_zero n f alc k
    · rw [hlu, hcreated]

end Valens
